import Mathlib

/-!
Verification development for the Telegram scraping bot (`src/bot.js`).

The source is a single file: a `withTimeout` promise race, an `autoScroll`
page routine, a cancellable retry loop `scrapeUntilButtonFound`, and the
`/scrape` and `/stop` command handlers sharing the `scrapingControllers` map.

The asynchronous JavaScript is embedded shallowly:
* a promise is a settle time (`Option Nat`, `none` = never settles) together
  with its settlement (`Except String α`, `.error` = rejection);
* the mutable `cancellationToken.cancelled` flag, which is set concurrently by
  the `/stop` handler, is modelled as the history of values the loop reads at
  its per-iteration check: a function from iteration index to `Bool`
  (the `/stop` handler only ever writes `true`, see `stopHandler`);
* each polling iteration's interaction with the page (navigation under the
  timeout, scrolling, `page.evaluate`) is an oracle `Nat → AttemptResult`;
* the unbounded `while (true)` loop takes a fuel argument; `none` means the
  fuel ran out while the loop was still polling;
* runs produce a linear trace of the externally visible events (launch,
  page open, cancellation checks, navigation starts, retry sleeps, close).
-/

namespace TgWb

/-- A settled-or-pending promise: the tick at which it settles (`none` = never)
and the settlement value (`Except.error` models rejection). -/
structure Prom (α : Type) where
  settlesAt : Option Nat
  result : Except String α
  deriving Repr

/-- Of two promises, the one `Promise.race` adopts: the earlier settler wins;
a promise that never settles loses to any settling one; ties go to the first
argument (the order the promises were passed to the race). -/
def Prom.earlier (a b : Prom α) : Prom α :=
  match a.settlesAt, b.settlesAt with
  | none, _ => b
  | some _, none => a
  | some ta, some tb => if ta ≤ tb then a else b

/-- `Promise.race` over a list of promises. The empty race never settles. -/
def promiseRace (ps : List (Prom α)) : Prom α :=
  ps.foldr Prom.earlier { settlesAt := none, result := .error "pending" }

/-- `withTimeout(promise, ms, errorMessage)` from `src/bot.js` lines 66-73:
races the promise against a `setTimeout` that rejects with `errorMessage`
after `ms` milliseconds. -/
def withTimeout (p : Prom α) (ms : Nat) (errorMessage : String) : Prom α :=
  promiseRace [p, { settlesAt := some ms, result := .error errorMessage }]

/-- Default of `PAGE_TIMEOUT_MS` (`src/bot.js` line 22). -/
def PAGE_TIMEOUT : Nat := 30000

/-- Default of `RETRY_DELAY_MS` (`src/bot.js` line 21). -/
def RETRY_DELAY : Nat := 5000

/-- The scroll-step distance of `autoScroll` (`src/bot.js` line 44). -/
def SCROLL_DISTANCE : Nat := 500

/-- The `setInterval` cadence of `autoScroll` in milliseconds
(`src/bot.js` line 53). -/
def SCROLL_INTERVAL_MS : Nat := 100

/-- One `setInterval` tick body of `autoScroll` plus the browser's clamping of
`window.scrollBy`: the scroll position advances by `SCROLL_DISTANCE` but never
past the maximum scroll position `scrollHeight - innerHeight` (0 when the
document fits the viewport). -/
def scrollStep (h vh pos : Nat) : Nat :=
  min (pos + SCROLL_DISTANCE) (h - vh)

/-- The `autoScroll` interval loop (`src/bot.js` lines 40-56). `height tick` is
`document.body.scrollHeight` as read at that tick (it may grow as lazy content
materializes), `vh` is the viewport height `window.innerHeight`, `total` is the
accumulated `totalHeight` counter, `pos` the current scroll position. Each tick
reads the height, scrolls by `SCROLL_DISTANCE`, adds `SCROLL_DISTANCE` to the
counter, and stops when the counter has reached the height just read. Returns
the list of scroll positions after each tick; `none` when the fuel ran out. -/
def autoScrollGo (height : Nat → Nat) (vh : Nat) :
    Nat → Nat → Nat → Nat → Option (List Nat)
  | 0, _, _, _ => none
  | fuel + 1, tick, total, pos =>
    if height tick ≤ total + SCROLL_DISTANCE then
      some [scrollStep (height tick) vh pos]
    else
      match autoScrollGo height vh fuel (tick + 1) (total + SCROLL_DISTANCE)
          (scrollStep (height tick) vh pos) with
      | none => none
      | some ps => some (scrollStep (height tick) vh pos :: ps)

/-- `autoScroll(page)` started with `totalHeight = 0` at scroll position 0. -/
def autoScroll (height : Nat → Nat) (vh fuel : Nat) : Option (List Nat) :=
  autoScrollGo height vh fuel 0 0 0

/-- Formalized from the words of claim C9, not from the source: a routine
"stops exactly when the scroll position no longer advances" only if, in its
position trace (`ps` = positions after each tick, starting from position 0),
a tick whose position equals the previous one is the last tick — once the
position no longer advances, no further scroll step occurs. -/
def noScrollAfterStall (ps : List Nat) : Prop :=
  ∀ j, j + 2 ≤ ps.length → (0 :: ps).get? j ≠ (0 :: ps).get? (j + 1)

/-- The DOM element `document.querySelector('.order__button.btn-main')` finds,
when present. -/
structure DomButton where
  classList : List String
  textContent : String
  ariaLabel : Option String
  dataLink : Option String
  deriving Repr, DecidableEq

/-- The data object the `page.evaluate` callback returns when the button is
present and not hidden (`src/bot.js` lines 121-125). -/
structure Snapshot where
  text : String
  ariaLabel : Option String
  dataLink : Option String
  deriving Repr, DecidableEq

/-- The `page.evaluate` extraction callback (`src/bot.js` lines 115-128):
`null` when the button is absent or carries the `hide` class, otherwise the
trimmed text content, `aria-label`, and `data-link` attributes. -/
def extractButton (dom : Option DomButton) : Option Snapshot :=
  match dom with
  | none => none
  | some b =>
    if b.classList.contains "hide" then none
    else some { text := b.textContent.trim,
                ariaLabel := b.ariaLabel,
                dataLink := b.dataLink }

/-- A concrete button carrying the `hide` marker class, for instantiations. -/
def hiddenButton : DomButton :=
  { classList := ["order__button", "btn-main", "hide"],
    textContent := "Buy", ariaLabel := none, dataLink := none }

/-- A concrete visible button, for instantiations. -/
def visibleButton : DomButton :=
  { classList := ["order__button", "btn-main"],
    textContent := " Buy ", ariaLabel := some "l", dataLink := some "d" }

/-- Outcome of the body of the inner `try` of one polling iteration:
either something threw (a navigation timeout, a navigation rejection, or a
renderer error during scrolling/evaluation), or `page.evaluate` returned its
value (the queried button, to which `extractButton` is applied). -/
inductive AttemptResult where
  | failure (msg : String)
  | rendered (dom : Option DomButton)
  deriving Repr, DecidableEq

/-- The external interactions of one attempt, from which `AttemptResult` is
produced the way the inner `try` block does (`src/bot.js` lines 102-135). -/
structure AttemptEnv where
  gotoProm : Nat → Prom Unit
  evalThrows : Nat → Option String
  dom : Nat → Option DomButton

/-- One attempt: `page.goto` under `withTimeout` with the navigation-timeout
message, then (on success) the pauses, `autoScroll`, and `page.evaluate`; any
rejection or throw is the attempt's failure. -/
def runAttempt (env : AttemptEnv) (i : Nat) : AttemptResult :=
  match (withTimeout (env.gotoProm i) PAGE_TIMEOUT "Page navigation timed out").result with
  | .error m => .failure m
  | .ok _ =>
    match env.evalThrows i with
    | some m => .failure m
    | none => .rendered (env.dom i)

/-- Terminal result of `scrapeUntilButtonFound`: the resolved button data, or
the error it threw (cancellation, or the engine-launch failure). -/
inductive ScrapeResult where
  | found (d : Snapshot)
  | error (msg : String)
  deriving Repr, DecidableEq

/-- The message of the error thrown on cancellation (`src/bot.js` line 99). -/
def scrapingStoppedMsg : String := "Scraping stopped by user."

/-- Externally visible events of one session run, in order. -/
inductive Ev where
  | launch
  | newPage
  | setUserAgent
  | checkCancel (i : Nat)
  | navigate (i : Nat)
  | attemptFailed (i : Nat) (msg : String)
  | notFound (i : Nat)
  | sleepRetry (i : Nat)
  | close
  deriving Repr, DecidableEq

/-- The reads of `cancellationToken && cancellationToken.cancelled`
(`src/bot.js` line 97): the token may be absent, and when present `f i` is the
flag's value at iteration `i`'s check. -/
def tokCancelled (tok : Option (Nat → Bool)) (i : Nat) : Bool :=
  match tok with
  | none => false
  | some f => f i

/-- The `while (true)` loop of `scrapeUntilButtonFound` (`src/bot.js` lines
96-141), from iteration `i` with the given fuel. Per iteration: check the
cancellation flag (if set, throw the cancellation error); otherwise navigate
and run the attempt; on extracted data return it; on `null` data or a caught
attempt error, sleep `RETRY_DELAY` and continue. `none` = fuel exhausted while
still polling. -/
def scrapeLoop (tok : Option (Nat → Bool)) (attempt : Nat → AttemptResult) :
    Nat → Nat → Option (ScrapeResult × List Ev)
  | 0, _ => none
  | fuel + 1, i =>
    if tokCancelled tok i then
      some (.error scrapingStoppedMsg, [.checkCancel i])
    else
      match attempt i with
      | .failure msg =>
        match scrapeLoop tok attempt fuel (i + 1) with
        | none => none
        | some (r, evs) =>
          some (r, .checkCancel i :: .navigate i :: .attemptFailed i msg ::
                   .sleepRetry i :: evs)
      | .rendered dom =>
        match extractButton dom with
        | some snap => some (.found snap, [.checkCancel i, .navigate i])
        | none =>
          match scrapeLoop tok attempt fuel (i + 1) with
          | none => none
          | some (r, evs) =>
            some (r, .checkCancel i :: .navigate i :: .notFound i ::
                     .sleepRetry i :: evs)

/-- `scrapeUntilButtonFound(url, cancellationToken)` (`src/bot.js` lines
84-147). `launch` is the outcome of `puppeteer.launch`: on rejection the error
propagates at once (the `finally` skips `browser.close()` because `browser`
was never assigned); on success the page is opened, the user agent set, the
loop runs, and whatever way the loop exits the `finally` closes the browser. -/
def scrapeUntilButtonFound (launch : Except String Unit)
    (tok : Option (Nat → Bool)) (attempt : Nat → AttemptResult) (fuel : Nat) :
    Option (ScrapeResult × List Ev) :=
  match launch with
  | .error msg => some (.error msg, [])
  | .ok _ =>
    match scrapeLoop tok attempt fuel 0 with
    | none => none
    | some (r, evs) =>
      some (r, .launch :: .newPage :: .setUserAgent :: evs ++ [.close])

/-- Events of the transport layer (`bot.sendMessage` plus the mutations of the
`scrapingControllers` map). -/
inductive BotEvent where
  | sendMessage (chatId : Nat) (text : String)
  | storeController (chatId : Nat) (tokenId : Nat)
  | releaseController (chatId : Nat)
  deriving Repr, DecidableEq

/-- JavaScript string interpolation of a nullable string (`null` prints as
the text `null`). -/
def showNullable : Option String → String
  | none => "null"
  | some s => s

/-- The success message of the `/scrape` handler (`src/bot.js` line 186). -/
def foundMessage (d : Snapshot) : String :=
  "Button found!\nText: " ++ d.text ++
  "\nAria Label: " ++ showNullable d.ariaLabel ++
  "\nData Link: " ++ showNullable d.dataLink

/-- The final message the `/scrape` handler sends for a session outcome
(`src/bot.js` lines 186-190). -/
def outcomeMessage : ScrapeResult → String
  | .found d => foundMessage d
  | .error m => "Scraping stopped: " ++ m

/-- The `/scrape` handler (`src/bot.js` lines 162-196) for one conversation.
`reg` is the `scrapingControllers` map (chat id to the identity of the stored
cancellation token), `urlValid` the outcome of `new URL(url)`, `freshId` the
identity of the token the handler would create, and `session` the terminal
result the awaited `scrapeUntilButtonFound` call settles with. Returns the
final map and the ordered handler events. -/
def scrapeHandler (chatId : Nat) (urlValid : Bool) (reg : Nat → Option Nat)
    (freshId : Nat) (session : ScrapeResult) :
    (Nat → Option Nat) × List BotEvent :=
  if urlValid = false then
    (reg, [.sendMessage chatId "Invalid URL provided."])
  else
    match reg chatId with
    | some _ =>
      (reg, [.sendMessage chatId
        "A scraping process is already running. Use /stop to cancel it before starting a new one."])
    | none =>
      (Function.update (Function.update reg chatId (some freshId)) chatId none,
       [.storeController chatId freshId,
        .sendMessage chatId (outcomeMessage session),
        .releaseController chatId])

/-- The `/stop` handler (`src/bot.js` lines 199-207). `flags` maps token
identity to the token's `cancelled` field; when the chat has a stored
controller its flag is set to `true`, otherwise nothing changes. -/
def stopHandler (chatId : Nat) (reg : Nat → Option Nat) (flags : Nat → Bool) :
    (Nat → Bool) × List BotEvent :=
  match reg chatId with
  | some tid =>
    (Function.update flags tid true,
     [.sendMessage chatId "Scraping has been stopped."])
  | none =>
    (flags, [.sendMessage chatId "No active scraping process to stop."])

/-- The `/stop` handler only ever writes `true` to a token's flag: a flag
already reading `true` still reads `true` after any `/stop`, and nothing in
the program ever writes `false`, so each token's read history is monotone —
the justification for the monotone-flag hypothesis assumed for claim C3. -/
theorem stopHandler_only_sets (chatId : Nat) (reg : Nat → Option Nat)
    (flags : Nat → Bool) (t : Nat) (h : flags t = true) :
    (stopHandler chatId reg flags).1 t = true := by
  cases hr : reg chatId with
  | none => simp [stopHandler, hr, h]
  | some tid =>
    simp only [stopHandler, hr]
    by_cases ht : t = tid
    · subst ht
      simp
    · simp [Function.update, ht, h]

/-- Helper: the loop only navigates at iterations whose cancellation check
read `false`. -/
theorem scrapeLoop_navigate_not_cancelled (f : Nat → Bool)
    (attempt : Nat → AttemptResult) :
    ∀ fuel i r evs, scrapeLoop (some f) attempt fuel i = some (r, evs) →
      ∀ j, Ev.navigate j ∈ evs → f j = false := by
  intro fuel
  induction fuel with
  | zero => intro i r evs h; exact absurd h (by simp [scrapeLoop])
  | succ n ih =>
    intro i r evs h j hj
    simp only [scrapeLoop] at h
    by_cases hc : tokCancelled (some f) i
    · rw [if_pos hc] at h
      simp only [Option.some.injEq, Prod.mk.injEq] at h
      obtain ⟨-, rfl⟩ := h
      simp at hj
    · rw [if_neg hc] at h
      simp only [tokCancelled, Bool.not_eq_true] at hc
      cases ha : attempt i with
      | failure msg =>
        simp only [ha] at h
        cases hrec : scrapeLoop (some f) attempt n (i + 1) with
        | none => simp only [hrec] at h; exact absurd h (by simp)
        | some val =>
          obtain ⟨r', evs'⟩ := val
          simp only [hrec] at h
          simp only [Option.some.injEq, Prod.mk.injEq] at h
          obtain ⟨-, rfl⟩ := h
          simp only [List.mem_cons] at hj
          rcases hj with h1 | h1 | h1 | h1 | h1
          · exact absurd h1 (by simp)
          · obtain rfl : j = i := by simpa using h1
            exact hc
          · exact absurd h1 (by simp)
          · exact absurd h1 (by simp)
          · exact ih (i + 1) r' evs' hrec j h1
      | rendered dom =>
        simp only [ha] at h
        cases hx : extractButton dom with
        | some snap =>
          simp only [hx] at h
          simp only [Option.some.injEq, Prod.mk.injEq] at h
          obtain ⟨-, rfl⟩ := h
          simp only [List.mem_cons] at hj
          rcases hj with h1 | h1 | h1
          · exact absurd h1 (by simp)
          · obtain rfl : j = i := by simpa using h1
            exact hc
          · exact absurd h1 (by simp)
        | none =>
          simp only [hx] at h
          cases hrec : scrapeLoop (some f) attempt n (i + 1) with
          | none => simp only [hrec] at h; exact absurd h (by simp)
          | some val =>
            obtain ⟨r', evs'⟩ := val
            simp only [hrec] at h
            simp only [Option.some.injEq, Prod.mk.injEq] at h
            obtain ⟨-, rfl⟩ := h
            simp only [List.mem_cons] at hj
            rcases hj with h1 | h1 | h1 | h1 | h1
            · exact absurd h1 (by simp)
            · obtain rfl : j = i := by simpa using h1
              exact hc
            · exact absurd h1 (by simp)
            · exact absurd h1 (by simp)
            · exact ih (i + 1) r' evs' hrec j h1

/-- Helper: the loop itself never emits a `close` event (the close happens in
the `finally` of `scrapeUntilButtonFound`, outside the loop). -/
theorem scrapeLoop_no_close (tok : Option (Nat → Bool))
    (attempt : Nat → AttemptResult) :
    ∀ fuel i r evs, scrapeLoop tok attempt fuel i = some (r, evs) →
      Ev.close ∉ evs := by
  intro fuel
  induction fuel with
  | zero => intro i r evs h; exact absurd h (by simp [scrapeLoop])
  | succ n ih =>
    intro i r evs h
    simp only [scrapeLoop] at h
    by_cases hc : tokCancelled tok i
    · rw [if_pos hc] at h
      simp only [Option.some.injEq, Prod.mk.injEq] at h
      obtain ⟨-, rfl⟩ := h
      simp
    · rw [if_neg hc] at h
      cases ha : attempt i with
      | failure msg =>
        simp only [ha] at h
        cases hrec : scrapeLoop tok attempt n (i + 1) with
        | none => simp only [hrec] at h; exact absurd h (by simp)
        | some val =>
          obtain ⟨r', evs'⟩ := val
          simp only [hrec] at h
          simp only [Option.some.injEq, Prod.mk.injEq] at h
          obtain ⟨-, rfl⟩ := h
          have := ih (i + 1) r' evs' hrec
          simp [this]
      | rendered dom =>
        simp only [ha] at h
        cases hx : extractButton dom with
        | some snap =>
          simp only [hx] at h
          simp only [Option.some.injEq, Prod.mk.injEq] at h
          obtain ⟨-, rfl⟩ := h
          simp
        | none =>
          simp only [hx] at h
          cases hrec : scrapeLoop tok attempt n (i + 1) with
          | none => simp only [hrec] at h; exact absurd h (by simp)
          | some val =>
            obtain ⟨r', evs'⟩ := val
            simp only [hrec] at h
            simp only [Option.some.injEq, Prod.mk.injEq] at h
            obtain ⟨-, rfl⟩ := h
            have := ih (i + 1) r' evs' hrec
            simp [this]

/-- Claim C3: with a token whose flag is monotone (it is only ever set, never
cleared — see `stopHandler_only_sets`) and set by iteration `k`, every
navigation event of any completed run has index strictly below `k` (no
navigation after the flag is set), and at any iteration whose check reads the
flag as set, the loop terminates at once with the cancellation outcome,
emitting only the check. -/
theorem cancel_stops_navigation (f : Nat → Bool) (attempt : Nat → AttemptResult)
    (k : Nat) (hmono : ∀ a b : Nat, a ≤ b → f a = true → f b = true)
    (hk : f k = true) :
    (∀ fuel i r evs, scrapeLoop (some f) attempt fuel i = some (r, evs) →
      ∀ j, Ev.navigate j ∈ evs → j < k) ∧
    (∀ fuel i, f i = true →
      scrapeLoop (some f) attempt (fuel + 1) i =
        some (.error scrapingStoppedMsg, [.checkCancel i])) := by
  constructor
  · intro fuel i r evs h j hj
    have hfj := scrapeLoop_navigate_not_cancelled f attempt fuel i r evs h j hj
    by_contra hlt
    push_neg at hlt
    have := hmono k j hlt hk
    rw [hfj] at this
    exact Bool.noConfusion this
  · intro fuel i hi
    simp [scrapeLoop, tokCancelled, hi]

theorem cancel_stops_navigation_witness :
    scrapeLoop (some fun n => decide (1 ≤ n)) (fun _ => .failure "x") 2 0 =
      some (.error scrapingStoppedMsg,
        [.checkCancel 0, .navigate 0, .attemptFailed 0 "x", .sleepRetry 0,
         .checkCancel 1]) ∧
    (∀ j, Ev.navigate j ∈
        [Ev.checkCancel 0, Ev.navigate 0, Ev.attemptFailed 0 "x",
         Ev.sleepRetry 0, Ev.checkCancel 1] → j < 1) ∧
    scrapeLoop (some fun n => decide (1 ≤ n)) (fun _ => .failure "x") 1 1 =
      some (.error scrapingStoppedMsg, [.checkCancel 1]) := by
  have hmono : ∀ a b : Nat, a ≤ b →
      decide (1 ≤ a) = true → decide (1 ≤ b) = true := by
    intro a b hab ha
    simp only [decide_eq_true_eq] at *
    omega
  have hrun : scrapeLoop (some fun n => decide (1 ≤ n)) (fun _ => .failure "x") 2 0 =
      some (.error scrapingStoppedMsg,
        [.checkCancel 0, .navigate 0, .attemptFailed 0 "x", .sleepRetry 0,
         .checkCancel 1]) := rfl
  refine ⟨hrun, ?_, ?_⟩
  · exact (cancel_stops_navigation _ _ 1 hmono (by decide)).1 2 0 _ _ hrun
  · exact (cancel_stops_navigation _ _ 1 hmono (by decide)).2 0 1 (by decide)

/-- Claim C6: a failed attempt (navigation timeout or a renderer throw) is
recovered locally: the iteration logs the failure, sleeps the retry delay,
and the session continues as the loop from the next iteration — in
particular the failure never becomes the session's terminal outcome by
itself, and the continuation re-checks cancellation first (by definition of
`scrapeLoop`). -/
theorem attempt_failure_is_recovered (tok : Option (Nat → Bool))
    (attempt : Nat → AttemptResult) (i fuel : Nat) (msg : String)
    (hnc : tokCancelled tok i = false) (hf : attempt i = .failure msg) :
    scrapeLoop tok attempt (fuel + 1) i =
      Option.map (fun p => (p.1,
        Ev.checkCancel i :: Ev.navigate i :: Ev.attemptFailed i msg ::
        Ev.sleepRetry i :: p.2))
        (scrapeLoop tok attempt fuel (i + 1)) := by
  simp only [scrapeLoop, hnc, hf, Bool.false_eq_true, if_false]
  cases hrec : scrapeLoop tok attempt fuel (i + 1) with
  | none => simp
  | some val => obtain ⟨r', evs'⟩ := val; simp

theorem attempt_failure_is_recovered_witness :
    tokCancelled none 0 = false ∧
    (fun _ : Nat => AttemptResult.failure "boom") 0 = .failure "boom" ∧
    scrapeLoop none (fun _ => .failure "boom") 2 0 =
      Option.map (fun p => (p.1,
        Ev.checkCancel 0 :: Ev.navigate 0 :: Ev.attemptFailed 0 "boom" ::
        Ev.sleepRetry 0 :: p.2))
        (scrapeLoop none (fun _ => .failure "boom") 1 1) :=
  ⟨rfl, rfl, attempt_failure_is_recovered none _ 0 1 "boom" rfl rfl⟩

/-- Claim C7: extraction yields `none` exactly when the button is absent or
carries the `hide` marker class; a visible button yields the snapshot of
trimmed text, aria label and data-link; a session whose every attempt
renders a hidden button never terminates (keeps retrying, never `found`);
and a visible button ends that very iteration with `found` carrying that
attempt's snapshot. -/
theorem hidden_or_absent_retries (attempt : Nat → AttemptResult) :
    (∀ dom, extractButton dom = none ↔
      (dom = none ∨
        ∃ b, dom = some b ∧ b.classList.contains "hide" = true)) ∧
    (∀ b : DomButton, b.classList.contains "hide" = false →
      extractButton (some b) =
        some ⟨b.textContent.trim, b.ariaLabel, b.dataLink⟩) ∧
    ((∀ i, ∃ b, attempt i = .rendered (some b) ∧
        b.classList.contains "hide" = true) →
      ∀ fuel i, scrapeLoop none attempt fuel i = none) ∧
    (∀ i b fuel, attempt i = .rendered (some b) →
      b.classList.contains "hide" = false →
      scrapeLoop none attempt (fuel + 1) i =
        some (.found ⟨b.textContent.trim, b.ariaLabel, b.dataLink⟩,
              [.checkCancel i, .navigate i])) := by
  refine ⟨?_, ?_, ?_, ?_⟩
  · intro dom
    cases dom with
    | none => simp [extractButton]
    | some b =>
      by_cases hb : b.classList.contains "hide" = true <;>
        simp [extractButton, hb]
  · intro b hb
    have hb2 : "hide" ∉ b.classList := by simpa using hb
    simp [extractButton, hb2]
  · intro hall fuel
    induction fuel with
    | zero => intro i; rfl
    | succ n ih =>
      intro i
      obtain ⟨b, hb, hh⟩ := hall i
      have hh2 : "hide" ∈ b.classList := by simpa using hh
      simp [scrapeLoop, tokCancelled, hb, extractButton, hh2, ih (i + 1)]
  · intro i b fuel hb hvis
    have hv2 : "hide" ∉ b.classList := by simpa using hvis
    simp [scrapeLoop, tokCancelled, hb, extractButton, hv2]

theorem hidden_or_absent_retries_witness :
    extractButton (some hiddenButton) = none ∧
    extractButton (some visibleButton) =
      some ⟨visibleButton.textContent.trim, some "l", some "d"⟩ ∧
    scrapeLoop none (fun _ => .rendered (some hiddenButton)) 5 0 = none ∧
    scrapeLoop none (fun _ => .rendered (some visibleButton)) 1 0 =
      some (.found ⟨visibleButton.textContent.trim, some "l", some "d"⟩,
            [.checkCancel 0, .navigate 0]) :=
  ⟨((hidden_or_absent_retries (fun _ => .rendered (some hiddenButton))).1
      (some hiddenButton)).mpr (Or.inr ⟨hiddenButton, rfl, rfl⟩),
   (hidden_or_absent_retries
      (fun _ => .rendered (some visibleButton))).2.1 visibleButton rfl,
   (hidden_or_absent_retries (fun _ => .rendered (some hiddenButton))).2.2.1
      (fun _ => ⟨hiddenButton, rfl, rfl⟩) 5 0,
   (hidden_or_absent_retries (fun _ => .rendered (some visibleButton))).2.2.2
      0 visibleButton 0 rfl rfl⟩

/-- Claim C8: for any completed session run, if the launch succeeded the
trace contains exactly one `close`, and it is the last event (after the loop
exited, whichever way); if the launch failed there is no `close` at all (no
close is attempted on an absent handle). -/
theorem browser_closed_exactly_once (launch : Except String Unit)
    (tok : Option (Nat → Bool)) (attempt : Nat → AttemptResult)
    (fuel : Nat) (r : ScrapeResult) (evs : List Ev)
    (h : scrapeUntilButtonFound launch tok attempt fuel = some (r, evs)) :
    (launch = .ok () → evs.count .close = 1 ∧ evs.getLast? = some .close) ∧
    (∀ msg, launch = .error msg → evs.count .close = 0) := by
  cases launch with
  | error m =>
    simp only [scrapeUntilButtonFound, Option.some.injEq, Prod.mk.injEq] at h
    obtain ⟨-, rfl⟩ := h
    exact ⟨fun hok => Except.noConfusion hok, fun msg _ => rfl⟩
  | ok u =>
    simp only [scrapeUntilButtonFound] at h
    cases hrec : scrapeLoop tok attempt fuel 0 with
    | none => simp only [hrec] at h; exact absurd h (by simp)
    | some val =>
      obtain ⟨r', evs'⟩ := val
      simp only [hrec] at h
      simp only [Option.some.injEq, Prod.mk.injEq] at h
      obtain ⟨-, rfl⟩ := h
      have hno : Ev.close ∉ evs' := scrapeLoop_no_close tok attempt fuel 0 r' evs' hrec
      refine ⟨fun _ => ⟨?_, ?_⟩, fun msg hbad => Except.noConfusion hbad⟩
      · simp [List.count_cons, List.count_append, List.count_eq_zero.mpr hno]
      · show ((Ev.launch :: Ev.newPage :: Ev.setUserAgent :: evs') ++
            Ev.close :: []).getLast? = some Ev.close
        rw [List.getLast?_append_cons]
        rfl

theorem browser_closed_exactly_once_witness :
    scrapeUntilButtonFound (.ok ()) none
        (fun _ => .rendered (some visibleButton)) 1 =
      some (.found ⟨visibleButton.textContent.trim, some "l", some "d"⟩,
        [.launch, .newPage, .setUserAgent, .checkCancel 0, .navigate 0,
         .close]) ∧
    ([Ev.launch, .newPage, .setUserAgent, .checkCancel 0, .navigate 0,
      .close].count .close = 1 ∧
     [Ev.launch, .newPage, .setUserAgent, .checkCancel 0, .navigate 0,
      .close].getLast? = some .close) := by
  have hrun : scrapeUntilButtonFound (.ok ()) none
      (fun _ => .rendered (some visibleButton)) 1 =
    some (.found ⟨visibleButton.textContent.trim, some "l", some "d"⟩,
      [.launch, .newPage, .setUserAgent, .checkCancel 0, .navigate 0,
       .close]) := rfl
  exact ⟨hrun,
    (browser_closed_exactly_once (.ok ()) none _ 1 _ _ hrun).1 rfl⟩

/-- Claim C5: the deadline guard returns the operation's own result when the
operation settles before the duration elapses, and yields the timeout
rejection carrying the given message when the timer fires first (the
operation never settling, or settling only after the timer); the losing
operation is merely discarded — the winner is independent of its value. -/
theorem withTimeout_spec (p : Prom α) (ms : Nat) (msg : String) :
    (∀ t, p.settlesAt = some t → t < ms → withTimeout p ms msg = p) ∧
    ((p.settlesAt = none ∨ ∃ t, p.settlesAt = some t ∧ ms < t) →
      withTimeout p ms msg =
        { settlesAt := some ms, result := Except.error msg }) := by
  constructor
  · intro t ht hlt
    simp [withTimeout, promiseRace, Prom.earlier, ht, Nat.le_of_lt hlt]
  · rintro (hnone | ⟨t, ht, hgt⟩)
    · simp [withTimeout, promiseRace, Prom.earlier, hnone]
    · simp [withTimeout, promiseRace, Prom.earlier, ht, Nat.not_le.mpr hgt]

theorem withTimeout_spec_witness :
    ((⟨some 5, Except.ok 42⟩ : Prom Nat).settlesAt = some 5 ∧
      withTimeout (⟨some 5, Except.ok 42⟩ : Prom Nat) 10 "t" =
        ⟨some 5, Except.ok 42⟩) ∧
    ((⟨none, Except.ok 0⟩ : Prom Nat).settlesAt = none ∧
      withTimeout (⟨none, Except.ok 0⟩ : Prom Nat) 10 "t" =
        ⟨some 10, Except.error "t"⟩) :=
  ⟨⟨rfl, (withTimeout_spec _ 10 "t").1 5 rfl (by decide)⟩,
   ⟨rfl, (withTimeout_spec _ 10 "t").2 (Or.inl rfl)⟩⟩

/-- Claim C4: when `puppeteer.launch` rejects, the session resolves
immediately to the launch error: no navigation, no retry sleep, no logged
per-attempt failure — the launch rejection is outside the inner try/catch,
so the per-attempt retry handling never sees it. -/
theorem launch_failure_is_immediate (msg : String) (tok : Option (Nat → Bool))
    (attempt : Nat → AttemptResult) (fuel : Nat) :
    scrapeUntilButtonFound (.error msg) tok attempt fuel =
      some (.error msg, []) := rfl

/-- Claim C10: a session whose cancellation flag is already set when the run
begins still launches the browser and opens the page (with the user agent
set) before the first cancellation check, then terminates with the
cancellation error with zero navigation attempts, and the browser is
closed. -/
theorem precancelled_run_launches_then_cancels (tok : Option (Nat → Bool))
    (attempt : Nat → AttemptResult) (fuel : Nat)
    (h : tokCancelled tok 0 = true) :
    scrapeUntilButtonFound (.ok ()) tok attempt (fuel + 1) =
      some (.error scrapingStoppedMsg,
        [.launch, .newPage, .setUserAgent, .checkCancel 0, .close]) := by
  simp [scrapeUntilButtonFound, scrapeLoop, h]

theorem precancelled_run_launches_then_cancels_witness :
    tokCancelled (some fun _ => true) 0 = true ∧
    scrapeUntilButtonFound (.ok ()) (some fun _ => true)
        (fun _ => .rendered none) 1 =
      some (.error scrapingStoppedMsg,
        [.launch, .newPage, .setUserAgent, .checkCancel 0, .close]) :=
  ⟨rfl, precancelled_run_launches_then_cancels _ _ 0 rfl⟩

/-- Claim C2: a `/scrape` arriving while the conversation already has an
active controller is answered with the already-running message; the
controller map is returned unchanged (the existing entry and its handle are
intact) and no `storeController` event occurs, so no second handle is
created. -/
theorem second_scrape_rejected (chatId freshId tid : Nat)
    (reg : Nat → Option Nat) (session : ScrapeResult)
    (h : reg chatId = some tid) :
    scrapeHandler chatId true reg freshId session =
      (reg, [.sendMessage chatId
        "A scraping process is already running. Use /stop to cancel it before starting a new one."]) := by
  simp [scrapeHandler, h]

theorem second_scrape_rejected_witness :
    (Function.update (fun _ => (none : Option Nat)) 7 (some 3)) 7 = some 3 ∧
    scrapeHandler 7 true (Function.update (fun _ => none) 7 (some 3)) 9
        (.error "x") =
      (Function.update (fun _ => none) 7 (some 3),
       [.sendMessage 7
        "A scraping process is already running. Use /stop to cancel it before starting a new one."]) :=
  ⟨by simp, second_scrape_rejected 7 9 3 _ _ (by simp)⟩

/-- Claim C1: for an admitted session (valid URL, no existing entry), the
handler's event list is exactly store, outcome message, release — so the
stored controller entry is removed exactly once, after the terminal outcome
message, on every outcome path (`session` ranges over found, cancellation,
and engine-launch failure alike) — and the conversation's entry is gone from
the final map. -/
theorem release_exactly_once (chatId freshId : Nat) (reg : Nat → Option Nat)
    (session : ScrapeResult) (h : reg chatId = none) :
    (scrapeHandler chatId true reg freshId session).2 =
      [.storeController chatId freshId,
       .sendMessage chatId (outcomeMessage session),
       .releaseController chatId] ∧
    (scrapeHandler chatId true reg freshId session).2.count
        (.releaseController chatId) = 1 ∧
    (scrapeHandler chatId true reg freshId session).1 chatId = none := by
  refine ⟨by simp [scrapeHandler, h], ?_, by simp [scrapeHandler, h]⟩
  simp [scrapeHandler, h, List.count_cons]

theorem release_exactly_once_witness :
    (fun _ => (none : Option Nat)) 7 = none ∧
    (scrapeHandler 7 true (fun _ => none) 9 (.error "boom")).2.count
        (.releaseController 7) = 1 ∧
    (scrapeHandler 7 true (fun _ => none) 9 (.error "boom")).1 7 = none :=
  ⟨rfl, (release_exactly_once 7 9 _ (.error "boom") rfl).2.1,
        (release_exactly_once 7 9 _ (.error "boom") rfl).2.2⟩

/-- Helper: on a page whose scroll height at tick `t` is `1000 * t + 1000`
(lazy content materializing faster than the 500-unit counter accumulates),
the stop condition `totalHeight >= scrollHeight` never holds: the counter
entering tick `t` is `500 * t`, and `500 * t + 500 < 1000 * t + 1000` at
every tick — the loop never returns, whatever the fuel. -/
theorem autoScrollGo_growing_none :
    ∀ fuel tick total pos, total = 500 * tick →
      autoScrollGo (fun t => 1000 * t + 1000) 0 fuel tick total pos = none := by
  intro fuel
  induction fuel with
  | zero => intro tick total pos _; rfl
  | succ n ih =>
    intro tick total pos htot
    simp only [autoScrollGo]
    have hsd : SCROLL_DISTANCE = 500 := rfl
    rw [if_neg (by rw [hsd]; omega)]
    have hrec := ih (tick + 1) (total + SCROLL_DISTANCE)
      (scrollStep (1000 * tick + 1000) 0 pos) (by rw [hsd]; omega)
    simp only [hrec]

/-- Claim C9 counterexample, both failing parts at explicit inputs. First,
the stop rule: on a page of fixed scroll height 1500 viewed through a
1200-high viewport, the scroll position reaches its maximum 300 at the
first tick and never advances again, yet the routine performs two more
scroll steps — it stops only when the accumulated 500-unit counter reaches
the scroll height, not when the position stops advancing. Second,
termination: the routine does not terminate for every page — on a page
whose scroll height grows by 1000 per tick, the loop never completes, for
any fuel. -/
theorem autoScroll_not_stop_on_stall :
    (autoScroll (fun _ => 1500) 1200 10 = some [300, 300, 300] ∧
      ¬ noScrollAfterStall [300, 300, 300]) ∧
    (∀ fuel, autoScroll (fun t => 1000 * t + 1000) 0 fuel = none) := by
  refine ⟨⟨rfl, fun h => h 1 (by decide) rfl⟩, fun fuel => ?_⟩
  exact autoScrollGo_growing_none fuel 0 0 0 rfl

/-- Helper: a result list of the scroll loop is never empty. -/
theorem autoScrollGo_ne_nil (height : Nat → Nat) (vh : Nat) :
    ∀ fuel tick total pos ps,
      autoScrollGo height vh fuel tick total pos = some ps → ps ≠ [] := by
  intro fuel
  cases fuel with
  | zero => intro _ _ _ _ h; exact absurd h (by simp [autoScrollGo])
  | succ n =>
    intro tick total pos ps h
    simp only [autoScrollGo] at h
    by_cases hstop : height tick ≤ total + SCROLL_DISTANCE
    · rw [if_pos hstop] at h
      simp only [Option.some.injEq] at h
      subst h
      simp
    · rw [if_neg hstop] at h
      cases hrec : autoScrollGo height vh n (tick + 1) (total + SCROLL_DISTANCE)
          (scrollStep (height tick) vh pos) with
      | none => simp only [hrec] at h; exact absurd h (by simp)
      | some ps' =>
        simp only [hrec, Option.some.injEq] at h
        subst h
        simp

/-- Helper: with a bounded scroll height, the loop completes whenever the
fuel covers the bound (the 500-unit counter strictly grows each tick). -/
theorem autoScrollGo_isSome (height : Nat → Nat) (H vh : Nat)
    (hbound : ∀ n, height n ≤ H) :
    ∀ fuel tick total pos, 1 ≤ fuel → H ≤ total + SCROLL_DISTANCE * fuel →
      (autoScrollGo height vh fuel tick total pos).isSome = true := by
  intro fuel
  induction fuel with
  | zero => intro tick total pos h; omega
  | succ n ih =>
    intro tick total pos _ hH
    simp only [autoScrollGo]
    by_cases hstop : height tick ≤ total + SCROLL_DISTANCE
    · rw [if_pos hstop]
      rfl
    · rw [if_neg hstop]
      have hbt := hbound tick
      have hsd : SCROLL_DISTANCE = 500 := rfl
      have h1 : 1 ≤ n := by
        rw [hsd] at hstop hH
        omega
      have h2 : H ≤ (total + SCROLL_DISTANCE) + SCROLL_DISTANCE * n := by
        rw [hsd] at hH ⊢
        omega
      have := ih (tick + 1) (total + SCROLL_DISTANCE)
        (scrollStep (height tick) vh pos) h1 h2
      cases hrec : autoScrollGo height vh n (tick + 1) (total + SCROLL_DISTANCE)
          (scrollStep (height tick) vh pos) with
      | none => rw [hrec] at this; exact absurd this (by simp)
      | some ps' => simp [hrec]

/-- Helper: on a constant-height page, the running position is
`min totalHeight (height - viewport)`, so a completed run ends exactly at
the page bottom (the maximal scroll position). -/
theorem autoScrollGo_const_getLast (h0 vh : Nat) :
    ∀ fuel tick total pos ps,
      pos = min total (h0 - vh) →
      autoScrollGo (fun _ => h0) vh fuel tick total pos = some ps →
      ps.getLast? = some (h0 - vh) := by
  intro fuel
  induction fuel with
  | zero => intro tick total pos ps _ h; exact absurd h (by simp [autoScrollGo])
  | succ n ih =>
    intro tick total pos ps hpos h
    simp only [autoScrollGo] at h
    have hsd : SCROLL_DISTANCE = 500 := rfl
    by_cases hstop : h0 ≤ total + SCROLL_DISTANCE
    · rw [if_pos hstop] at h
      simp only [Option.some.injEq] at h
      subst h
      have hstep : scrollStep h0 vh pos = h0 - vh := by
        subst hpos
        simp only [scrollStep, hsd] at *
        omega
      rw [hstep]
      rfl
    · rw [if_neg hstop] at h
      cases hrec : autoScrollGo (fun _ => h0) vh n (tick + 1)
          (total + SCROLL_DISTANCE) (scrollStep h0 vh pos) with
      | none => simp only [hrec] at h; exact absurd h (by simp)
      | some ps' =>
        simp only [hrec, Option.some.injEq] at h
        subst h
        have hinv : scrollStep h0 vh pos = min (total + SCROLL_DISTANCE) (h0 - vh) := by
          subst hpos
          simp only [scrollStep, hsd]
          omega
        have hlast := ih (tick + 1) (total + SCROLL_DISTANCE)
          (scrollStep h0 vh pos) ps' hinv hrec
        have hne := autoScrollGo_ne_nil (fun _ => h0) vh n (tick + 1)
          (total + SCROLL_DISTANCE) (scrollStep h0 vh pos) ps' hrec
        cases ps' with
        | nil => exact absurd rfl hne
        | cons a l =>
          rw [List.getLast?_cons_cons]
          exact hlast

/-- Claim C9 amended: the routine scrolls downward in fixed 500-unit
increments on the fixed 100ms cadence and stops once the accumulated
scrolled distance reaches the scroll height read at that tick (not when the
position stops advancing — see the counterexample); it terminates on every
page whose scroll height is bounded, and on a page of constant height a
completed run finishes exactly at the bottom (the maximal scroll position,
even with the counter overshooting it). -/
theorem autoScroll_stops_at_total_height (height : Nat → Nat)
    (H vh fuel : Nat) (hbound : ∀ n, height n ≤ H)
    (hfuel : H ≤ SCROLL_DISTANCE * fuel) (hone : 1 ≤ fuel) :
    (autoScroll height vh fuel).isSome = true ∧
    (∀ h0 ps, (∀ n, height n = h0) → autoScroll height vh fuel = some ps →
      ps.getLast? = some (h0 - vh)) := by
  constructor
  · exact autoScrollGo_isSome height H vh hbound fuel 0 0 0 hone
      (by simpa using hfuel)
  · intro h0 ps hconst hps
    have hfun : height = fun _ => h0 := funext hconst
    have hgo : autoScrollGo (fun _ => h0) vh fuel 0 0 0 = some ps := by
      rw [← hfun]
      exact hps
    exact autoScrollGo_const_getLast h0 vh fuel 0 0 0 ps (by simp) hgo

theorem autoScroll_stops_at_total_height_witness :
    (autoScroll (fun _ => 1000) 600 2).isSome = true ∧
    ([400, 400] : List Nat).getLast? = some (1000 - 600) := by
  have happ := autoScroll_stops_at_total_height (fun _ => 1000) 1000 600 2
    (fun _ => le_refl 1000) (by decide) (by omega)
  exact ⟨happ.1, happ.2 1000 [400, 400] (fun _ => rfl) rfl⟩

end TgWb
